import Mathlib

/-!
# pygame `rwobject.c`: SDL_RWops support for Python objects

A shallow embedding of `src_c/rwobject.c`.

* The CPython and SDL entry points the file calls are external.  Each is a
  small function here, named after the C function, whose outcome comes from
  the object it is applied to (`PyObject`) or from the environment (`Env`).
* The interpreter state the file reads and writes is explicit: `World` holds
  the Python error indicator, the SDL error flag, the reference count of the
  wrapped object, the state of the wrapped object, and a log of the method
  calls made on it.
* Compile-time switches (`PY2`/`PY3`, `PY_VERSION_HEX`) are the field
  `Env.build`.  The SDL2 variant of the integer aliases is the one embedded
  (`pg_int_t = Sint64`, `pg_size_t = size_t`), on an LP64 target.
* The GIL bracket (`PyGILState_Ensure`/`PyGILState_Release`) has no effect on
  the values computed and is left out.
-/

namespace RWObject

/-! ## Data model -/

/-- A byte string. -/
abbrev Bytes := List (Fin 256)

/-- The Python versions the preprocessor distinguishes: `PY2`, and for `PY3`
the three ranges of `PY_VERSION_HEX` in `_trydecode_pathlibobj`. -/
inductive PyBuild
  | py2
  | py3old
  | py34
  | py36
  deriving DecidableEq, Repr

/-- The `PY2` switch. -/
def PyBuild.isPY2 : PyBuild → Bool
  | .py2 => true
  | _ => false

/-- Exception classes. -/
inductive ExcType
  | TypeError
  | MemoryError
  | SystemError
  | SyntaxError
  | IOError
  | FileNotFoundError
  | OverflowError
  | AttributeError
  | ImportError
  | UnicodeError
  | user (n : Nat)
  deriving DecidableEq, Repr

/-- The value of a raised exception, as `PyErr_Fetch` hands it over:
absent, an object whose `str()` is `msg`, or an object whose `str()` itself
raises `t` with text `msg`. -/
inductive ExcValue
  | null
  | text (msg : String)
  | unprintable (t : ExcType) (msg : String)
  deriving DecidableEq, Repr

/-- A raised Python error: what the error indicator holds. -/
structure PyErr where
  type : ExcType
  value : ExcValue
  deriving DecidableEq, Repr

/-- A Python value returned by a method of the wrapped object.  `obj` is any
object that is not `None`, an integer, text or bytes; it carries the outcome
of its truth test. -/
inductive PyVal
  | none
  | int (i : Int)
  | str (s : String)
  | bytes (b : Bytes)
  | obj (truth : Except PyErr Bool)

/-- What `PyUnicode_Check` and `Bytes_Check` see of an object. -/
inductive Content
  | text (s : String)
  | bytes (b : Bytes)
  | other
  deriving DecidableEq, Repr

/-- The methods this file looks up on a wrapped object. -/
inductive Meth
  | read
  | write
  | seek
  | tell
  | close
  | seekable
  deriving DecidableEq, Repr

/-- An argument of a method call. -/
inductive Arg
  | int (i : Int)
  | bytes (b : Bytes)
  deriving DecidableEq, Repr

/-- One `PyObject_CallMethod(obj, name, args)`. -/
structure Call where
  meth : Meth
  args : List Arg
  deriving DecidableEq, Repr

/-- A Python object as this file observes it; `σ` is the type of its mutable
state.
* `content`: whether it is text or bytes, and which;
* `fspath`: the result of `__fspath__` as seen by `PyOS_FSPath`, for an object
  that is neither text nor bytes;
* `isPurePath`, `strOf`: `PyObject_IsInstance(obj, PurePath)` and
  `PyObject_Str(obj)`;
* `hasAttr`: `PyObject_HasAttrString`;
* `call`: the method bodies, as a transition on the object state. -/
structure PyObject (σ : Type) where
  content : Content
  fspath : Except PyErr Content
  isPurePath : Except PyErr Bool
  strOf : Except PyErr String
  hasAttr : Meth → Bool
  call : σ → Call → Except PyErr PyVal × σ

/-- The interpreter and library state the file touches.
* `host`: the state of the wrapped object;
* `err`: the Python error indicator;
* `printed`: what `PyErr_Print` has written, oldest first;
* `sdlError`: whether an SDL error message is set;
* `refcnt`: the reference count of the wrapped object;
* `calls`: every `PyObject_CallMethod` made on the wrapped object, oldest
  first (an attribute lookup that fails is a failed call and is logged too);
* `live`: the number of allocated `SDL_RWops`;
* `threads`: whether `PyEval_InitThreads` has run. -/
structure World (σ : Type) where
  host : σ
  err : Option PyErr
  printed : List PyErr
  sdlError : Bool
  refcnt : Nat
  calls : List Call
  live : Nat
  threads : Bool

/-- What the surroundings decide.
* `build`: the compile-time Python version;
* `encode`: `PyUnicode_AsEncodedString(text, encoding, errors)`;
* `fsCodec`, `fsErrors`: the macros `UNICODE_DEF_FS_CODEC` and
  `UNICODE_DEF_FS_ERROR` of `pgcompat.h` (C strings, possibly `NULL`);
* `allocRW`: whether `SDL_AllocRW` returns a handle;
* `openFile`: whether `SDL_RWFromFile(path, "rb")` opens the path;
* `importPathlib`, `purePathAttr`: the error, if any, of
  `PyImport_ImportModule("pathlib")` and of the lookup of `PurePath`. -/
structure Env where
  build : PyBuild
  encode : String → String → String → Except PyErr Bytes
  fsCodec : Option String
  fsErrors : Option String
  allocRW : Bool
  openFile : Bytes → Bool
  importPathlib : Option PyErr
  purePathAttr : Option PyErr

/-- An `SDL_RWops`: opened by SDL on a file, or built by
`pgRWops_FromFileObject` with the wrapped object in `hidden.unknown.data1`
and the trampolines of this file as its operations. -/
inductive RWops (σ : Type)
  | native (path : Bytes)
  | object (data1 : PyObject σ)

/-- The C constant `pg_default_encoding`. -/
def pg_default_encoding : String := "unicode_escape"

/-- The C constant `pg_default_errors`. -/
def pg_default_errors : String := "backslashreplace"

/-- The constant `SEEK_SET`. -/
def SEEK_SET : Int := 0

/-- The constant `SEEK_CUR`. -/
def SEEK_CUR : Int := 1

/-- The constant `SEEK_END`. -/
def SEEK_END : Int := 2

/-- The constant `LONG_MAX` on an LP64 target. -/
def LONG_MAX : Int := 2 ^ 63 - 1

/-- The constant `LONG_MIN` on an LP64 target. -/
def LONG_MIN : Int := -(2 ^ 63)

/-! ## The CPython and SDL calls -/

/-- The call `PyErr_SetString(type, msg)` (also the macro `RAISE`). -/
def PyErr_SetString {σ : Type} (t : ExcType) (msg : String) (w : World σ) : World σ :=
  { w with err := some ⟨t, .text msg⟩ }

/-- The call `PyErr_Clear()`. -/
def PyErr_Clear {σ : Type} (w : World σ) : World σ :=
  { w with err := none }

/-- The call `PyErr_Print()`: writes the pending error out and clears it. -/
def PyErr_Print {σ : Type} (w : World σ) : World σ :=
  match w.err with
  | some e => { w with err := none, printed := w.printed ++ [e] }
  | none => w

/-- The call `PyObject_CallMethod(obj, name, args)`: `none` is `NULL`, with
the error set.  A missing attribute fails the lookup and the method body does
not run. -/
def PyObject_CallMethod {σ : Type} (o : PyObject σ) (c : Call) (w : World σ) :
    Option PyVal × World σ :=
  if o.hasAttr c.meth then
    match o.call w.host c with
    | (.ok v, h) => (some v, { w with host := h, calls := w.calls ++ [c] })
    | (.error e, h) => (none, { w with host := h, calls := w.calls ++ [c], err := some e })
  else
    (none, { w with calls := w.calls ++ [c],
                    err := some ⟨.AttributeError, .text "object has no such attribute"⟩ })

/-- The call `PyObject_IsTrue(v)`: 1, 0, or -1 with the error set. -/
def PyObject_IsTrue {σ : Type} (v : PyVal) (w : World σ) : Int × World σ :=
  match v with
  | .none => (0, w)
  | .int i => (if i = 0 then 0 else 1, w)
  | .str s => (if s.isEmpty then 0 else 1, w)
  | .bytes b => (if b.isEmpty then 0 else 1, w)
  | .obj (.ok true) => (1, w)
  | .obj (.ok false) => (0, w)
  | .obj (.error e) => (-1, { w with err := some e })

/-- The call `PyLong_AsLong(v)`: the value, or -1 with the error set when
`v` is no integer or does not fit a C `long`. -/
def PyLong_AsLong {σ : Type} (v : PyVal) (w : World σ) : Int × World σ :=
  match v with
  | .int i =>
    if LONG_MIN ≤ i ∧ i ≤ LONG_MAX then (i, w)
    else (-1, { w with err := some ⟨.OverflowError, .text "Python int too large to convert to C long"⟩ })
  | _ => (-1, { w with err := some ⟨.TypeError, .text "an integer is required"⟩ })

/-- The call `PyOS_FSPath(obj)`: text and bytes are returned as they are;
another object is asked for its `__fspath__`, which must give text or
bytes. -/
def PyOS_FSPath {σ : Type} (o : PyObject σ) (w : World σ) : Option Content × World σ :=
  match o.content with
  | .text s => (some (.text s), w)
  | .bytes b => (some (.bytes b), w)
  | .other =>
    match o.fspath with
    | .ok (.text s) => (some (.text s), w)
    | .ok (.bytes b) => (some (.bytes b), w)
    | .ok .other =>
      (none, { w with err := some ⟨.TypeError, .text "expected str, bytes or os.PathLike object"⟩ })
    | .error e => (none, { w with err := some e })

/-- The C function `strlen` on the buffer of a bytes object (which ends in a
NUL of its own): the number of bytes before the first NUL. -/
def strlen (b : Bytes) : Nat :=
  (b.takeWhile (fun x => x ≠ 0)).length

/-- The bytes a C string function reads from `Bytes_AS_STRING(b)`. -/
def Bytes_AS_STRING (b : Bytes) : Bytes :=
  b.takeWhile (fun x => x ≠ 0)

/-- The C function `memcpy(dst, src, n)` as seen from `dst`: the first `n`
bytes of `src` replace the first `n` bytes at `dst`.  When `n` exceeds the
length of `dst` the result is longer than `dst`: the bytes past its end were
written too. -/
def memcpy (dst src : Bytes) (n : Nat) : Bytes :=
  src.take n ++ dst.drop n

/-! ## The functions of `rwobject.c` -/

/-- Source: `_is_filelike_obj`.  The result is the C `int` returned. -/
def _is_filelike_obj {σ : Type} (env : Env) (obj : Option (PyObject σ)) (w : World σ) :
    Int × World σ :=
  match obj with
  | none => (0, w)
  | some o =>
    if !o.hasAttr .read || !o.hasAttr .write || !o.hasAttr .seek
        || (env.build.isPY2 && !o.hasAttr .tell) then
      (0, w)
    else if o.hasAttr .seekable then
      match PyObject_CallMethod o ⟨.seekable, []⟩ w with
      | (none, w1) => (0, PyErr_Clear w1)
      | (some temp, w1) => PyObject_IsTrue temp w1
    else
      (1, w)

/-- Source: `_trydecode_pathlibobj`.  The result is what the returned object
is (text, bytes or something else), `none` for `NULL`. -/
def _trydecode_pathlibobj {σ : Type} (env : Env) (o : PyObject σ) (w : World σ) :
    Option Content × World σ :=
  match env.build with
  | .py36 =>
    match PyOS_FSPath o w with
    | (none, w1) => (some o.content, PyErr_Clear w1)
    | (some ret, w1) => (some ret, w1)
  | .py34 =>
    match env.importPathlib with
    | some e => (none, { w with err := some e })
    | none =>
      match env.purePathAttr with
      | some e => (none, { w with err := some e })
      | none =>
        match o.isPurePath with
        | .ok true =>
          match o.strOf with
          | .ok s => (some (.text s), w)
          | .error e => (none, { w with err := some e })
        | .ok false => (some o.content, w)
        | .error e => (none, { w with err := some e })
  | _ => (some o.content, w)

/-- Source: `pg_EncodeString`.  The result is `none` for `NULL`,
`some .none` for `Py_None`, `some (.bytes b)` for a bytes object.  The C
pointers `encoding` and `errors` are `none` when `NULL`; the test
`encoding == pg_default_encoding` compares pointers and holds exactly when
the caller passed `NULL`. -/
def pg_EncodeString {σ : Type} (env : Env) (obj : Option (PyObject σ))
    (encoding errors : Option String) (eclass : Option ExcType) (w : World σ) :
    Option PyVal × World σ :=
  match obj with
  | none => (none, w)
  | some o =>
    let enc := encoding.getD pg_default_encoding
    let errs := errors.getD pg_default_errors
    match _trydecode_pathlibobj env o w with
    | (none, w1) => (none, w1)
    | (some (.text s), w1) =>
      match env.encode s enc errs with
      | .ok oencoded => (some (.bytes oencoded), w1)
      | .error e =>
        if e.type = .MemoryError then
          (none, { w1 with err := some e })
        else
          match eclass with
          | some ec =>
            match e.value with
            | .null => (none, PyErr_SetString ec "Unicode encoding error" w1)
            | .text str => (none, { w1 with err := some ⟨ec, .text str⟩ })
            | .unprintable t msg => (none, { w1 with err := some ⟨t, .text msg⟩ })
          | none =>
            if encoding.isNone && errors.isNone then
              (none, PyErr_SetString .SystemError
                "Pygame bug (in pg_EncodeString): unexpected encoding error" w1)
            else
              (some .none, PyErr_Clear w1)
    | (some (.bytes b), w1) => (some (.bytes b), w1)
    | (some .other, w1) => (some .none, w1)

/-- The text `PyErr_Format` builds in `pg_EncodeFilePath` from the format
`"File path '%.1024s' contains null characters"`. -/
def nullPathMessage (b : Bytes) : String :=
  "File path '"
    ++ String.mk (((Bytes_AS_STRING b).take 1024).map (fun x => Char.ofNat x.val))
    ++ "' contains null characters"

/-- Source: `pg_EncodeFilePath`.  In the branch that builds the message, the
second `pg_EncodeString` returns `NULL` or bytes (`EncodeString_default_result`
below); the case of any other value is never reached. -/
def pg_EncodeFilePath {σ : Type} (env : Env) (obj : Option (PyObject σ))
    (eclass : Option ExcType) (w : World σ) : Option PyVal × World σ :=
  match pg_EncodeString env obj env.fsCodec env.fsErrors eclass w with
  | (none, w1) => (none, w1)
  | (some (.bytes b), w1) =>
    if b.length ≠ strlen b then
      match eclass with
      | some ec =>
        match pg_EncodeString env obj none none none w1 with
        | (none, w2) => (none, w2)
        | (some (.bytes r), w2) => (none, { w2 with err := some ⟨ec, .text (nullPathMessage r)⟩ })
        | (some _, w2) => (none, { w2 with err := some ⟨ec, .text (nullPathMessage [])⟩ })
      | none => (some .none, w1)
    else
      (some (.bytes b), w1)
  | (some result, w1) => (some result, w1)

/-- Source: `_pg_rw_seek`; `fileobj` is `context->hidden.unknown.data1`. -/
def _pg_rw_seek {σ : Type} (env : Env) (fileobj : PyObject σ) (offset : Int) (whence : Int)
    (w : World σ) : Int × World σ :=
  let r1 := PyObject_CallMethod fileobj ⟨.seek, [.int offset, .int whence]⟩ w
  let r2 :=
    if env.build.isPY2 then
      match r1 with
      | (some .none, w1) => PyObject_CallMethod fileobj ⟨.tell, []⟩ w1
      | _ => r1
    else r1
  let r3 : Int × World σ :=
    match r2 with
    | (some result, w2) => PyLong_AsLong result w2
    | (none, w2) => (-1, w2)
  (r3.1, if r3.2.err.isSome then PyErr_Print r3.2 else r3.2)

/-- Source: `_pg_rw_size` (SDL2 only).  `SDL_RWseek(context, ...)` is
`context->seek`, which is `_pg_rw_seek` on a handle of this file. -/
def _pg_rw_size {σ : Type} (env : Env) (fileobj : PyObject σ) (w : World σ) : Int × World σ :=
  let p := _pg_rw_seek env fileobj 0 SEEK_CUR w
  if p.1 = -1 then (-1, p.2)
  else
    let r := _pg_rw_seek env fileobj 0 SEEK_END p.2
    let b := _pg_rw_seek env fileobj p.1 SEEK_SET r.2
    if b.1 = -1 then (-1, b.2) else (r.1, b.2)

/-- What `_pg_rw_read` leaves behind: the value returned, the memory at `ptr`
afterwards, and the length it gave to `memcpy` (0 when `memcpy` is not
reached). -/
structure ReadOut where
  retval : Nat
  buf : Bytes
  copied : Nat
  deriving DecidableEq, Repr

/-- Source: `_pg_rw_read`.  `ptr` is the caller's buffer.  The result is
`none` where the C division `retval /= size` has a zero divisor, which C
leaves undefined. -/
def _pg_rw_read {σ : Type} (fileobj : PyObject σ) (ptr : Bytes) (size maxnum : Nat)
    (w : World σ) : Option ReadOut × World σ :=
  match PyObject_CallMethod fileobj ⟨.read, [.int (((size * maxnum) % 2 ^ 64 : Nat) : Int)]⟩ w with
  | (none, w1) => (some ⟨0, ptr, 0⟩, PyErr_Print w1)
  | (some (.bytes result), w1) =>
    let retval := result.length
    if retval ≠ 0 then
      if size = 0 then (none, w1)
      else (some ⟨retval / size, memcpy ptr result retval, retval⟩, w1)
    else
      (some ⟨0, ptr, 0⟩, w1)
  | (some _, w1) => (some ⟨0, ptr, 0⟩, w1)

/-- Source: `_pg_rw_close`.  `Py_DECREF(fileobj)` and `SDL_FreeRW(context)`
run on every path. -/
def _pg_rw_close {σ : Type} (fileobj : PyObject σ) (w : World σ) : Int × World σ :=
  let r : Int × World σ :=
    match PyObject_CallMethod fileobj ⟨.close, []⟩ w with
    | (none, w1) => (-1, PyErr_Print w1)
    | (some _, w1) => (0, w1)
  (r.1, { r.2 with refcnt := r.2.refcnt - 1, live := r.2.live - 1 })

/-- Source: `pgRWops_FromFileObject`. -/
def pgRWops_FromFileObject {σ : Type} (env : Env) (obj : Option (PyObject σ)) (w : World σ) :
    Option (RWops σ) × World σ :=
  match _is_filelike_obj env obj w, obj with
  | (r, w1), some o =>
    if r = 0 then
      (none, PyErr_SetString .TypeError "Invalid filetype object" w1)
    else if !env.allocRW then
      (none, { w1 with err := some ⟨.MemoryError, .null⟩ })
    else
      (some (.object o),
        { w1 with refcnt := w1.refcnt + 1, live := w1.live + 1, threads := true })
  | (_, w1), none => (none, PyErr_SetString .TypeError "Invalid filetype object" w1)

/-- The test that picks the error branch of `_rwops_from_pystr`:
`PyUnicode_Check(obj)` under `PY3`, `PyUnicode_Check(obj) ||
PyString_Check(obj)` under `PY2` (where `PyString_Check` is `Bytes_Check`). -/
def isStringLike {σ : Type} (env : Env) (o : PyObject σ) : Bool :=
  match o.content with
  | .text _ => true
  | .bytes _ => env.build.isPY2
  | .other => false

/-- The error `_rwops_from_pystr` sets: `FileNotFoundError` under `PY3`,
`IOError` under `PY2`, with the same text. -/
def noSuchFile (env : Env) : PyErr :=
  ⟨if env.build.isPY2 then .IOError else .FileNotFoundError, .text "No such file or directory."⟩

/-- Source: `_rwops_from_pystr`. -/
def _rwops_from_pystr {σ : Type} (env : Env) (obj : Option (PyObject σ)) (w : World σ) :
    Option (RWops σ) × World σ :=
  match obj with
  | none => (none, w)
  | some o =>
    match pg_EncodeString env obj (some "UTF-8") none none w with
    | (none, w1) => (none, w1)
    | (some oencoded, w1) =>
      let rw : Option (RWops σ) × World σ :=
        match oencoded with
        | .bytes b =>
          if env.openFile (Bytes_AS_STRING b) then
            (some (.native (Bytes_AS_STRING b)), { w1 with live := w1.live + 1 })
          else (none, { w1 with sdlError := true })
        | _ => (none, w1)
      match rw with
      | (some h, w2) => (some h, w2)
      | (none, w2) =>
        if isStringLike env o then
          (none, { w2 with sdlError := false, err := some (noSuchFile env) })
        else
          (none, { w2 with sdlError := false })

/-- Source: `pgRWops_FromObject`. -/
def pgRWops_FromObject {σ : Type} (env : Env) (obj : Option (PyObject σ)) (w : World σ) :
    Option (RWops σ) × World σ :=
  match _rwops_from_pystr env obj w with
  | (some rw, w1) => (some rw, w1)
  | (none, w1) =>
    if w1.err.isSome then (none, w1)
    else pgRWops_FromFileObject env obj w1

/-- The `etype` argument of the two Python-level functions, as
`_pg_is_exception_class` sorts it: an exception class, or something else. -/
inductive EtypeArg
  | exceptionClass (t : ExcType)
  | notAClass
  deriving DecidableEq, Repr

/-- The arguments of `encode_string` after `PyArg_ParseTupleAndKeywords` has
matched them against `"|OssO&"`: each is optional. -/
structure EncodeArgs (σ : Type) where
  obj : Option (PyObject σ)
  encoding : Option String
  errors : Option String
  etype : Option EtypeArg

/-- Source: `pg_encode_string`.  The converter `_pg_is_exception_class`
fails the parse with a `TypeError` on an `etype` that is no exception
class. -/
def pg_encode_string {σ : Type} (env : Env) (args : EncodeArgs σ) (w : World σ) :
    Option PyVal × World σ :=
  match args.etype with
  | some .notAClass => (none, { w with err := some ⟨.TypeError, .text "Expected an exception class"⟩ })
  | some (.exceptionClass t) =>
    let w1 := if args.obj.isNone then PyErr_SetString .SyntaxError "Forwarded exception" w else w
    pg_EncodeString env args.obj args.encoding args.errors (some t) w1
  | none =>
    let w1 := if args.obj.isNone then PyErr_SetString .SyntaxError "Forwarded exception" w else w
    pg_EncodeString env args.obj args.encoding args.errors none w1

/-- The number of calls of method `m` in a call log. -/
def countCalls (m : Meth) (log : List Call) : Nat :=
  (log.filter (fun c => c.meth = m)).length


/-! ## Example objects

Concrete objects and environments at which the theorems below are
instantiated. -/

/-- State of an in-memory stream: its bytes, the position, whether it was
closed. -/
structure MemStream where
  data : Bytes
  pos : Nat
  closed : Bool
  deriving DecidableEq, Repr

/-- The methods of an in-memory stream, in the manner of `io.BytesIO`. -/
def memCall (s : MemStream) (c : Call) : Except PyErr PyVal × MemStream :=
  match c.meth, c.args with
  | .read, [.int n] =>
    (.ok (.bytes ((s.data.drop s.pos).take n.toNat)),
      { s with pos := min (s.pos + n.toNat) s.data.length })
  | .write, [.bytes b] =>
    (.ok (.int b.length),
      { s with data := s.data.take s.pos ++ b ++ s.data.drop (s.pos + b.length),
               pos := s.pos + b.length })
  | .seek, [.int off, .int whence] =>
    let p : Nat :=
      (if whence = 0 then off else if whence = 1 then (s.pos : Int) + off
        else (s.data.length : Int) + off).toNat
    (.ok (.int p), { s with pos := p })
  | .tell, [] => (.ok (.int s.pos), s)
  | .close, [] => (.ok .none, { s with closed := true })
  | .seekable, [] => (.ok (.int 1), s)
  | _, _ => (.error ⟨.TypeError, .text "bad arguments"⟩, s)

/-- An in-memory stream object: every method present. -/
def memObject : PyObject MemStream where
  content := .other
  fspath := .error ⟨.TypeError, .text "expected str, bytes or os.PathLike object"⟩
  isPurePath := .ok false
  strOf := .ok "<stream>"
  hasAttr := fun _ => true
  call := memCall

/-- A world with a fresh three-byte stream and nothing pending. -/
def memWorld : World MemStream where
  host := ⟨[1, 2, 3], 0, false⟩
  err := none
  printed := []
  sdlError := false
  refcnt := 1
  calls := []
  live := 0
  threads := false

/-- A text object. -/
def textObject (s : String) : PyObject Unit where
  content := .text s
  fspath := .ok (.text s)
  isPurePath := .ok false
  strOf := .ok s
  hasAttr := fun _ => false
  call := fun u _ => (.error ⟨.AttributeError, .text "object has no such attribute"⟩, u)

/-- A world with a stateless object and nothing pending. -/
def unitWorld : World Unit where
  host := ()
  err := none
  printed := []
  sdlError := false
  refcnt := 1
  calls := []
  live := 0
  threads := false

/-- An environment: Python 3.6 or later, an encoder that returns `out` for
every text, allocation and file opening as given. -/
def plainEnv (out : Except PyErr Bytes) (alloc : Bool) (canOpen : Bool) : Env where
  build := .py36
  encode := fun _ _ _ => out
  fsCodec := some "utf-8"
  fsErrors := some "surrogateescape"
  allocRW := alloc
  openFile := fun _ => canOpen
  importPathlib := none
  purePathAttr := none

/-- A stateless object with every attribute, whose methods answer as
scripted, whatever the arguments. -/
def scripted (answer : Meth → Except PyErr PyVal) : PyObject Unit where
  content := .other
  fspath := .error ⟨.TypeError, .text "expected str, bytes or os.PathLike object"⟩
  isPurePath := .ok false
  strOf := .ok "<object>"
  hasAttr := fun _ => true
  call := fun u c => (answer c.meth, u)

/-- An object whose `seekable()` returns a value whose truth test raises. -/
def moodyObject : PyObject Unit :=
  scripted (fun m =>
    match m with
    | .seekable => .ok (.obj (.error ⟨.user 0, .text "no truth value"⟩))
    | _ => .ok .none)

/-- An object whose `read` returns the same bytes whatever size is asked. -/
def fixedReader (out : Bytes) : PyObject Unit :=
  scripted (fun m =>
    match m with
    | .read => .ok (.bytes out)
    | _ => .ok .none)

/-- An object whose `seek` returns `None` and whose `tell` returns 7. -/
def noneSeeker : PyObject Unit :=
  scripted (fun m =>
    match m with
    | .tell => .ok (.int 7)
    | _ => .ok .none)

/-- An environment built for Python 2. -/
def py2Env : Env where
  build := .py2
  encode := fun _ _ _ => .ok []
  fsCodec := none
  fsErrors := some "replace"
  allocRW := true
  openFile := fun _ => false
  importPathlib := none
  purePathAttr := none

/-- An environment whose encoder gives a path with a NUL in it under every
encoding but the default one, where it runs out of memory. -/
def nulPathEnv : Env where
  build := .py36
  encode := fun _ enc _ =>
    if enc = pg_default_encoding then .error ⟨.MemoryError, .null⟩ else .ok [97, 0, 98]
  fsCodec := some "utf-8"
  fsErrors := some "surrogateescape"
  allocRW := true
  openFile := fun _ => false
  importPathlib := none
  purePathAttr := none

/-! ## Facts about the external calls -/

/-- `PyErr_Print` leaves the call log alone. -/
theorem PyErr_Print_calls {σ : Type} (w : World σ) : (PyErr_Print w).calls = w.calls := by
  unfold PyErr_Print; cases w.err <;> rfl

/-- `PyErr_Print` leaves the reference count alone. -/
theorem PyErr_Print_refcnt {σ : Type} (w : World σ) : (PyErr_Print w).refcnt = w.refcnt := by
  unfold PyErr_Print; cases w.err <;> rfl

/-- `PyErr_Print` leaves the number of handles alone. -/
theorem PyErr_Print_live {σ : Type} (w : World σ) : (PyErr_Print w).live = w.live := by
  unfold PyErr_Print; cases w.err <;> rfl

/-- `PyErr_Print` leaves the wrapped object alone. -/
theorem PyErr_Print_host {σ : Type} (w : World σ) : (PyErr_Print w).host = w.host := by
  unfold PyErr_Print; cases w.err <;> rfl

/-- After `PyErr_Print` no error is pending. -/
theorem PyErr_Print_err {σ : Type} (w : World σ) : (PyErr_Print w).err = none := by
  unfold PyErr_Print
  cases h : w.err <;> simp [h]

/-- After `if (PyErr_Occurred()) PyErr_Print();` no error is pending. -/
theorem print_if_pending_err {σ : Type} (w : World σ) :
    (if w.err.isSome then PyErr_Print w else w).err = none := by
  split
  · exact PyErr_Print_err w
  · rename_i h
    simpa using h

/-- Every `PyObject_CallMethod` adds its call to the end of the log. -/
theorem CallMethod_calls {σ : Type} (o : PyObject σ) (c : Call) (w : World σ) :
    (PyObject_CallMethod o c w).2.calls = w.calls ++ [c] := by
  unfold PyObject_CallMethod
  split
  · split <;> rfl
  · rfl

/-- A method call leaves the reference count alone. -/
theorem CallMethod_refcnt {σ : Type} (o : PyObject σ) (c : Call) (w : World σ) :
    (PyObject_CallMethod o c w).2.refcnt = w.refcnt := by
  unfold PyObject_CallMethod
  split
  · split <;> rfl
  · rfl

/-- A method call leaves the number of handles alone. -/
theorem CallMethod_live {σ : Type} (o : PyObject σ) (c : Call) (w : World σ) :
    (PyObject_CallMethod o c w).2.live = w.live := by
  unfold PyObject_CallMethod
  split
  · split <;> rfl
  · rfl

/-- The truth test leaves the call log alone. -/
theorem IsTrue_calls {σ : Type} (v : PyVal) (w : World σ) :
    (PyObject_IsTrue v w).2.calls = w.calls := by
  unfold PyObject_IsTrue; split <;> rfl

/-- The truth test leaves the reference count alone. -/
theorem IsTrue_refcnt {σ : Type} (v : PyVal) (w : World σ) :
    (PyObject_IsTrue v w).2.refcnt = w.refcnt := by
  unfold PyObject_IsTrue; split <;> rfl

/-- The truth test leaves the number of handles alone. -/
theorem IsTrue_live {σ : Type} (v : PyVal) (w : World σ) :
    (PyObject_IsTrue v w).2.live = w.live := by
  unfold PyObject_IsTrue; split <;> rfl

/-- Counting calls distributes over the concatenation of logs. -/
theorem countCalls_append (m : Meth) (l₁ l₂ : List Call) :
    countCalls m (l₁ ++ l₂) = countCalls m l₁ + countCalls m l₂ := by
  simp [countCalls]

/-- The probe `_is_filelike_obj` makes no `close` call and keeps the
reference count and the number of handles. -/
theorem is_filelike_frame {σ : Type} (env : Env) (obj : Option (PyObject σ)) (w : World σ) :
    countCalls .close (_is_filelike_obj env obj w).2.calls = countCalls .close w.calls
      ∧ (_is_filelike_obj env obj w).2.refcnt = w.refcnt
      ∧ (_is_filelike_obj env obj w).2.live = w.live := by
  unfold _is_filelike_obj
  cases obj with
  | none => simp
  | some o =>
    simp only
    split
    · simp
    · split
      · have hc := CallMethod_calls o ⟨.seekable, []⟩ w
        have hr := CallMethod_refcnt o ⟨.seekable, []⟩ w
        have hl := CallMethod_live o ⟨.seekable, []⟩ w
        split
        · rename_i w1 heq
          rw [heq] at hc hr hl
          simp only at hc hr hl
          simp [PyErr_Clear, hc, hr, hl, countCalls_append, countCalls]
        · rename_i temp w1 heq
          rw [heq] at hc hr hl
          simp only at hc hr hl
          simp [IsTrue_calls, IsTrue_refcnt, IsTrue_live, hc, hr, hl, countCalls_append,
            countCalls]
      · simp


/-! ## C1: wrap, then close -/

/-- C1, as stated, fails: the in-memory stream is accepted by the probe, yet
when `SDL_AllocRW` gives no handle `pgRWops_FromFileObject` returns `NULL`
with `MemoryError` set. -/
theorem wrap_fails_without_handle :
    (_is_filelike_obj (plainEnv (.ok []) false true) (some memObject) memWorld).1 = 1
      ∧ (pgRWops_FromFileObject (plainEnv (.ok []) false true) (some memObject) memWorld).1.isNone
          = true
      ∧ (pgRWops_FromFileObject (plainEnv (.ok []) false true) (some memObject) memWorld).2.err
          = some ⟨.MemoryError, .null⟩ := by
  refine ⟨?_, ?_, ?_⟩ <;> rfl

/-- C1, amended: for every object the probe accepts, when `SDL_AllocRW`
gives a handle, `pgRWops_FromFileObject` returns a handle on that object and
adds one reference without calling `close`; `_pg_rw_close` on it then makes
exactly one `close` call, brings the reference count and the number of live
handles back to their values before the wrap, and returns 0 when the `close`
call succeeded and -1 when it failed. -/
theorem wrap_then_close {σ : Type} (env : Env) (o : PyObject σ) (w : World σ)
    (hcap : (_is_filelike_obj env (some o) w).1 ≠ 0) (halloc : env.allocRW = true) :
    ∃ w1, pgRWops_FromFileObject env (some o) w = (some (.object o), w1)
      ∧ w1.refcnt = w.refcnt + 1
      ∧ countCalls .close w1.calls = countCalls .close w.calls
      ∧ countCalls .close (_pg_rw_close o w1).2.calls = countCalls .close w.calls + 1
      ∧ (_pg_rw_close o w1).2.refcnt = w.refcnt
      ∧ (_pg_rw_close o w1).2.live = w.live
      ∧ ((PyObject_CallMethod o ⟨.close, []⟩ w1).1.isSome = true → (_pg_rw_close o w1).1 = 0)
      ∧ ((PyObject_CallMethod o ⟨.close, []⟩ w1).1 = none → (_pg_rw_close o w1).1 = -1) := by
  obtain ⟨hc, hr, hl⟩ := is_filelike_frame env (some o) w
  refine ⟨{ (_is_filelike_obj env (some o) w).2 with
      refcnt := (_is_filelike_obj env (some o) w).2.refcnt + 1,
      live := (_is_filelike_obj env (some o) w).2.live + 1,
      threads := true }, ?_, ?_, ?_, ?_, ?_, ?_, ?_, ?_⟩
  · simp [pgRWops_FromFileObject, hcap, halloc]
  · simp [hr]
  · simpa using hc
  · generalize hw1 : ({ (_is_filelike_obj env (some o) w).2 with
      refcnt := (_is_filelike_obj env (some o) w).2.refcnt + 1,
      live := (_is_filelike_obj env (some o) w).2.live + 1,
      threads := true } : World σ) = w1
    have hcalls : w1.calls = (_is_filelike_obj env (some o) w).2.calls := by
      rw [← hw1]
    have hcm := CallMethod_calls o ⟨.close, []⟩ w1
    unfold _pg_rw_close
    split
    · rename_i w2 heq
      rw [heq] at hcm
      simp only at hcm
      simp [PyErr_Print_calls, hcm, countCalls_append, hcalls, hc]
      simp [countCalls]
    · rename_i v w2 heq
      rw [heq] at hcm
      simp only at hcm
      simp [hcm, countCalls_append, hcalls, hc]
      simp [countCalls]
  · generalize hw1 : ({ (_is_filelike_obj env (some o) w).2 with
      refcnt := (_is_filelike_obj env (some o) w).2.refcnt + 1,
      live := (_is_filelike_obj env (some o) w).2.live + 1,
      threads := true } : World σ) = w1
    have hrc : w1.refcnt = w.refcnt + 1 := by
      rw [← hw1]; simp [hr]
    have hcm := CallMethod_refcnt o ⟨.close, []⟩ w1
    unfold _pg_rw_close
    split
    · rename_i w2 heq
      rw [heq] at hcm
      simp only at hcm
      simp [PyErr_Print_refcnt, hcm, hrc]
    · rename_i v w2 heq
      rw [heq] at hcm
      simp only at hcm
      simp [hcm, hrc]
  · generalize hw1 : ({ (_is_filelike_obj env (some o) w).2 with
      refcnt := (_is_filelike_obj env (some o) w).2.refcnt + 1,
      live := (_is_filelike_obj env (some o) w).2.live + 1,
      threads := true } : World σ) = w1
    have hlv : w1.live = w.live + 1 := by
      rw [← hw1]; simp [hl]
    have hcm := CallMethod_live o ⟨.close, []⟩ w1
    unfold _pg_rw_close
    split
    · rename_i w2 heq
      rw [heq] at hcm
      simp only at hcm
      simp [PyErr_Print_live, hcm, hlv]
    · rename_i v w2 heq
      rw [heq] at hcm
      simp only at hcm
      simp [hcm, hlv]
  · intro h
    unfold _pg_rw_close
    split
    · rename_i w2 heq
      rw [heq] at h
      simp at h
    · rfl
  · intro h
    unfold _pg_rw_close
    split
    · rfl
    · rename_i v w2 heq
      rw [heq] at h
      simp at h

/-- C1, amended, at the in-memory stream: the handle is made, one `close`
call is logged, and the reference count is back at 1. -/
theorem wrap_then_close_witness :
    (_is_filelike_obj (plainEnv (.ok []) true true) (some memObject) memWorld).1 ≠ 0
    ∧ (plainEnv (.ok []) true true).allocRW = true
    ∧ ∃ w1, pgRWops_FromFileObject (plainEnv (.ok []) true true) (some memObject) memWorld
        = (some (.object memObject), w1)
      ∧ w1.refcnt = memWorld.refcnt + 1
      ∧ countCalls .close w1.calls = countCalls .close memWorld.calls
      ∧ countCalls .close (_pg_rw_close memObject w1).2.calls
          = countCalls .close memWorld.calls + 1
      ∧ (_pg_rw_close memObject w1).2.refcnt = memWorld.refcnt
      ∧ (_pg_rw_close memObject w1).2.live = memWorld.live
      ∧ ((PyObject_CallMethod memObject ⟨.close, []⟩ w1).1.isSome = true
          → (_pg_rw_close memObject w1).1 = 0)
      ∧ ((PyObject_CallMethod memObject ⟨.close, []⟩ w1).1 = none
          → (_pg_rw_close memObject w1).1 = -1) :=
  ⟨by decide, rfl,
    wrap_then_close (plainEnv (.ok []) true true) memObject memWorld (by decide) rfl⟩


/-! ## C6: the capability probe -/

/-- C6, at the input where the code departs from it: `seekable()` returns,
without error, a value whose truth test raises.  The value is not truthy, yet
`_is_filelike_obj` returns -1, which C reads as true, and leaves the error
set; `pgRWops_FromFileObject` goes on to build a handle. -/
theorem probe_accepts_failed_truth_test :
    (PyObject_CallMethod moodyObject ⟨.seekable, []⟩ unitWorld).1.isSome = true
      ∧ (_is_filelike_obj (plainEnv (.ok []) true true) (some moodyObject) unitWorld).1 = -1
      ∧ (_is_filelike_obj (plainEnv (.ok []) true true) (some moodyObject) unitWorld).2.err
          = some ⟨.user 0, .text "no truth value"⟩
      ∧ (pgRWops_FromFileObject (plainEnv (.ok []) true true) (some moodyObject) unitWorld).1.isSome
          = true := by
  refine ⟨?_, ?_, ?_, ?_⟩ <;> rfl

/-! ## C10: the read trampoline and the size of the buffer -/

/-- C10, at the input where the code departs from it: one element of one
byte is asked for into a one-byte buffer and the host returns two bytes.
`_pg_rw_read` copies both (the memory at `ptr` now holds two bytes) and
returns 2, more than the count of 1. -/
theorem read_copies_past_buffer :
    (_pg_rw_read (fixedReader [1, 2]) [0] 1 1 unitWorld).1 = some ⟨2, [1, 2], 2⟩ := by
  rfl

/-! ## C2: the read trampoline -/

/-- C2, as stated, fails for an element size of 0: the host answers
`read(0)` with one byte, and after the copy the division `retval /= size`
has divisor 0, so the call has no defined result. -/
theorem read_zero_size_undefined :
    (PyObject_CallMethod (fixedReader [1]) ⟨.read, [.int 0]⟩ unitWorld).1.isSome = true
      ∧ (_pg_rw_read (fixedReader [1]) [] 0 5 unitWorld).1 = none := by
  refine ⟨?_, ?_⟩ <;> rfl

/-- C2, amended to an element size above 0: `_pg_rw_read` makes the host
call `read((size * maxnum) mod 2^64)`; if the call fails, or returns a value
that is not bytes, the result is 0 and the buffer is unchanged (a failure is
printed); if it returns bytes `data`, these are copied to the start of the
buffer and the result is `data.length / size`, truncated. -/
theorem read_result {σ : Type} (o : PyObject σ) (ptr : Bytes) (size maxnum : Nat) (w : World σ)
    (hsize : 0 < size) :
    (∀ w1, PyObject_CallMethod o ⟨.read, [.int (((size * maxnum) % 2 ^ 64 : Nat) : Int)]⟩ w
          = (none, w1) →
        _pg_rw_read o ptr size maxnum w = (some ⟨0, ptr, 0⟩, PyErr_Print w1))
      ∧ (∀ v w1, PyObject_CallMethod o ⟨.read, [.int (((size * maxnum) % 2 ^ 64 : Nat) : Int)]⟩ w
          = (some v, w1) → (∀ b, v ≠ .bytes b) →
        _pg_rw_read o ptr size maxnum w = (some ⟨0, ptr, 0⟩, w1))
      ∧ (∀ data w1,
          PyObject_CallMethod o ⟨.read, [.int (((size * maxnum) % 2 ^ 64 : Nat) : Int)]⟩ w
            = (some (.bytes data), w1) →
        _pg_rw_read o ptr size maxnum w
          = (some ⟨data.length / size, data ++ ptr.drop data.length, data.length⟩, w1)) := by
  have hs : size ≠ 0 := Nat.pos_iff_ne_zero.mp hsize
  refine ⟨?_, ?_, ?_⟩
  · intro w1 h
    unfold _pg_rw_read
    rw [h]
  · intro v w1 h hv
    unfold _pg_rw_read
    rw [h]
    cases v with
    | bytes b => exact absurd rfl (hv b)
    | none => rfl
    | int i => rfl
    | str s => rfl
    | obj t => rfl
  · intro data w1 h
    unfold _pg_rw_read
    rw [h]
    by_cases hd : data.length = 0
    · have : data = [] := List.length_eq_zero.mp hd
      subst this
      simp
    · simp [hd, hs, memcpy]

/-- C2, amended, at the in-memory stream: two elements of one byte are read
from the three-byte stream into a four-byte buffer. -/
theorem read_result_witness :
    0 < 1
      ∧ _pg_rw_read memObject [9, 9, 9, 9] 1 2 memWorld
          = (some ⟨2, [1, 2, 9, 9], 2⟩,
              (PyObject_CallMethod memObject ⟨.read, [.int 2]⟩ memWorld).2) :=
  ⟨by decide,
    (read_result memObject [9, 9, 9, 9] 1 2 memWorld (by decide)).2.2 [1, 2]
      (PyObject_CallMethod memObject ⟨.read, [.int 2]⟩ memWorld).2 rfl⟩


/-! ## C7: the seek trampoline -/

/-- C7, as stated, fails on a Python 3 build: the host `seek` returns `None`,
and `_pg_rw_seek` returns -1 after that single call, without calling `tell`
(which would have reported 7). -/
theorem seek_none_no_fallback_py3 :
    (PyObject_CallMethod noneSeeker ⟨.seek, [.int 4, .int 0]⟩ unitWorld).1.isSome = true
      ∧ (_pg_rw_seek (plainEnv (.ok []) true true) noneSeeker 4 0 unitWorld).1 = -1
      ∧ (_pg_rw_seek (plainEnv (.ok []) true true) noneSeeker 4 0 unitWorld).2.calls
          = [⟨.seek, [.int 4, .int 0]⟩] := by
  refine ⟨?_, ?_, ?_⟩ <;> rfl

/-- An integer that fits a C `long` is converted to itself, with no error. -/
theorem PyLong_AsLong_int {σ : Type} (p : Int) (w : World σ) (h1 : LONG_MIN ≤ p)
    (h2 : p ≤ LONG_MAX) : PyLong_AsLong (.int p) w = (p, w) := by
  simp [PyLong_AsLong, h1, h2]

/-- What is no integer is converted to -1. -/
theorem PyLong_AsLong_other {σ : Type} (v : PyVal) (w : World σ) (h : ∀ i, v ≠ .int i) :
    (PyLong_AsLong v w).1 = -1 := by
  cases v with
  | int i => exact absurd rfl (h i)
  | none => rfl
  | str s => rfl
  | bytes b => rfl
  | obj t => rfl

/-- C7, amended: the fallback to `tell` exists on Python 2 builds only.
* Python 2, `seek` returns `None`: `tell()` is called next, and the position
  it reports is returned; if `tell()` fails or reports no integer the result
  is -1.
* Python 3, `seek` returns `None`: the result is -1 and `tell` is not called.
* On every build: an integer returned by `seek` that fits a C `long` is
  returned; a failed `seek` call gives -1; so does any other value that is no
  integer; and no error is left pending. -/
theorem seek_result {σ : Type} (env : Env) (o : PyObject σ) (offset whence : Int) (w : World σ) :
    (∀ w1 w2 p, env.build.isPY2 = true →
        PyObject_CallMethod o ⟨.seek, [.int offset, .int whence]⟩ w = (some .none, w1) →
        PyObject_CallMethod o ⟨.tell, []⟩ w1 = (some (.int p), w2) →
        LONG_MIN ≤ p → p ≤ LONG_MAX →
        (_pg_rw_seek env o offset whence w).1 = p
          ∧ (_pg_rw_seek env o offset whence w).2.calls
              = w.calls ++ [⟨.seek, [.int offset, .int whence]⟩, ⟨.tell, []⟩])
      ∧ (∀ w1 w2, env.build.isPY2 = true →
        PyObject_CallMethod o ⟨.seek, [.int offset, .int whence]⟩ w = (some .none, w1) →
        PyObject_CallMethod o ⟨.tell, []⟩ w1 = (none, w2) →
        (_pg_rw_seek env o offset whence w).1 = -1)
      ∧ (∀ w1 w2 v, env.build.isPY2 = true →
        PyObject_CallMethod o ⟨.seek, [.int offset, .int whence]⟩ w = (some .none, w1) →
        PyObject_CallMethod o ⟨.tell, []⟩ w1 = (some v, w2) → (∀ i, v ≠ .int i) →
        (_pg_rw_seek env o offset whence w).1 = -1)
      ∧ (∀ w1, env.build.isPY2 = false →
        PyObject_CallMethod o ⟨.seek, [.int offset, .int whence]⟩ w = (some .none, w1) →
        (_pg_rw_seek env o offset whence w).1 = -1
          ∧ (_pg_rw_seek env o offset whence w).2.calls
              = w.calls ++ [⟨.seek, [.int offset, .int whence]⟩])
      ∧ (∀ w1 p,
        PyObject_CallMethod o ⟨.seek, [.int offset, .int whence]⟩ w = (some (.int p), w1) →
        LONG_MIN ≤ p → p ≤ LONG_MAX →
        (_pg_rw_seek env o offset whence w).1 = p)
      ∧ (∀ w1,
        PyObject_CallMethod o ⟨.seek, [.int offset, .int whence]⟩ w = (none, w1) →
        (_pg_rw_seek env o offset whence w).1 = -1)
      ∧ (∀ w1 v,
        PyObject_CallMethod o ⟨.seek, [.int offset, .int whence]⟩ w = (some v, w1) →
        (∀ i, v ≠ .int i) → v ≠ .none →
        (_pg_rw_seek env o offset whence w).1 = -1)
      ∧ (_pg_rw_seek env o offset whence w).2.err = none := by
  refine ⟨?_, ?_, ?_, ?_, ?_, ?_, ?_, ?_⟩
  · intro w1 w2 p hpy hseek htell h1 h2
    have hc1 := CallMethod_calls o ⟨.seek, [.int offset, .int whence]⟩ w
    have hc2 := CallMethod_calls o ⟨.tell, []⟩ w1
    rw [hseek] at hc1
    rw [htell] at hc2
    simp only at hc1 hc2
    unfold _pg_rw_seek
    simp only [hpy, hseek, htell, if_true, PyLong_AsLong_int p w2 h1 h2]
    refine ⟨trivial, ?_⟩
    split
    · rw [PyErr_Print_calls, hc2, hc1]; simp
    · rw [hc2, hc1]; simp
  · intro w1 w2 hpy hseek htell
    unfold _pg_rw_seek
    simp only [hpy, hseek, htell, if_true]
  · intro w1 w2 v hpy hseek htell hv
    unfold _pg_rw_seek
    simp only [hpy, hseek, htell, if_true]
    exact PyLong_AsLong_other v w2 hv
  · intro w1 hpy hseek
    have hc1 := CallMethod_calls o ⟨.seek, [.int offset, .int whence]⟩ w
    rw [hseek] at hc1
    simp only at hc1
    unfold _pg_rw_seek
    simp only [hpy, hseek]
    refine ⟨rfl, ?_⟩
    simp [PyLong_AsLong, PyErr_Print, hc1]
  · intro w1 p hseek h1 h2
    unfold _pg_rw_seek
    cases hpy : env.build.isPY2 <;>
      simp only [hseek, if_true, Bool.false_eq_true, if_false, PyLong_AsLong_int p w1 h1 h2]
  · intro w1 hseek
    unfold _pg_rw_seek
    cases hpy : env.build.isPY2 <;> simp [hseek]
  · intro w1 v hseek hv hn
    unfold _pg_rw_seek
    cases hpy : env.build.isPY2
    · simp only [hseek]
      exact PyLong_AsLong_other v w1 hv
    · cases v with
      | none => exact absurd rfl hn
      | int i => exact absurd rfl (hv i)
      | str s => simp only [hseek, if_true]; rfl
      | bytes b => simp only [hseek, if_true]; rfl
      | obj t => simp only [hseek, if_true]; rfl
  · unfold _pg_rw_seek
    exact print_if_pending_err _

/-- C7, amended, on a Python 2 build: `seek` returns `None`, `tell` reports
7, and 7 is returned after the two calls. -/
theorem seek_result_witness :
    py2Env.build.isPY2 = true
      ∧ (_pg_rw_seek py2Env noneSeeker 4 0 unitWorld).1 = 7
      ∧ (_pg_rw_seek py2Env noneSeeker 4 0 unitWorld).2.calls
          = unitWorld.calls ++ [⟨.seek, [.int 4, .int 0]⟩, ⟨.tell, []⟩] :=
  ⟨rfl,
    (seek_result py2Env noneSeeker 4 0 unitWorld).1
      (PyObject_CallMethod noneSeeker ⟨.seek, [.int 4, .int 0]⟩ unitWorld).2
      (PyObject_CallMethod noneSeeker ⟨.tell, []⟩
        (PyObject_CallMethod noneSeeker ⟨.seek, [.int 4, .int 0]⟩ unitWorld).2).2
      7 rfl rfl rfl (by decide) (by decide)⟩


/-! ## C8: the size trampoline -/

/-- A call of a present method whose body returns `v` returns `v`, moves the object to its next state and is logged. -/
theorem CallMethod_ok {σ : Type} (o : PyObject σ) (c : Call) (w : World σ) (v : PyVal)
    (ha : o.hasAttr c.meth = true) (h : (o.call w.host c).1 = .ok v) :
    PyObject_CallMethod o c w
      = (some v, { w with host := (o.call w.host c).2, calls := w.calls ++ [c] }) := by
  unfold PyObject_CallMethod
  rw [if_pos ha]
  rcases hc : o.call w.host c with ⟨r, s⟩
  rw [hc] at h
  simp only at h
  subst h
  rfl

/-- When the host `seek` returns an integer, `_pg_rw_seek` makes no further call, and returns that integer or -1. -/
theorem seek_of_int {σ : Type} (env : Env) (o : PyObject σ) (offset whence : Int) (w w1 : World σ)
    (v : Int)
    (h : PyObject_CallMethod o ⟨.seek, [.int offset, .int whence]⟩ w = (some (.int v), w1)) :
    (_pg_rw_seek env o offset whence w).2.host = w1.host
      ∧ ((_pg_rw_seek env o offset whence w).1 = v ∨ (_pg_rw_seek env o offset whence w).1 = -1) := by
  unfold _pg_rw_seek
  cases hpy : env.build.isPY2 <;>
    simp only [h, if_true, Bool.false_eq_true, if_false] <;>
    unfold PyLong_AsLong <;>
    simp only <;>
    split <;>
    constructor <;>
    first
      | (split <;> simp [PyErr_Print_host])
      | simp

/-- When the first seek does not return -1, the world after `_pg_rw_size` is the world after the seek back to the reported position. -/
theorem size_world {σ : Type} (env : Env) (o : PyObject σ) (w : World σ)
    (h : (_pg_rw_seek env o 0 SEEK_CUR w).1 ≠ -1) :
    (_pg_rw_size env o w).2
      = (_pg_rw_seek env o (_pg_rw_seek env o 0 SEEK_CUR w).1 SEEK_SET
          (_pg_rw_seek env o 0 SEEK_END (_pg_rw_seek env o 0 SEEK_CUR w).2).2).2 := by
  unfold _pg_rw_size
  simp only [h, if_false]
  split <;> rfl

/-- C8: `_pg_rw_size` seeks by 0 from the current position, seeks to the
end, and seeks from the start to the position the first seek reported.  It
returns -1 if any of the three returned -1.  When the first did not, the
seek back to the reported position is its last action, and when none did it
returns the value of the seek to the end.  So on a stream whose
`seek(0, SEEK_CUR)` reports the position without moving it and whose
`seek(p, SEEK_SET)` moves to a reported position `p`, the position after the
call is the position before it. -/
theorem size_result {σ : Type} (env : Env) (o : PyObject σ) (w : World σ) :
    ((_pg_rw_seek env o 0 SEEK_CUR w).1 = -1 → (_pg_rw_size env o w).1 = -1)
      ∧ ((_pg_rw_seek env o 0 SEEK_CUR w).1 ≠ -1 →
        (_pg_rw_size env o w).2
            = (_pg_rw_seek env o (_pg_rw_seek env o 0 SEEK_CUR w).1 SEEK_SET
                (_pg_rw_seek env o 0 SEEK_END (_pg_rw_seek env o 0 SEEK_CUR w).2).2).2
          ∧ (((_pg_rw_seek env o 0 SEEK_END (_pg_rw_seek env o 0 SEEK_CUR w).2).1 = -1
              ∨ (_pg_rw_seek env o (_pg_rw_seek env o 0 SEEK_CUR w).1 SEEK_SET
                  (_pg_rw_seek env o 0 SEEK_END (_pg_rw_seek env o 0 SEEK_CUR w).2).2).1 = -1) →
            (_pg_rw_size env o w).1 = -1)
          ∧ ((_pg_rw_seek env o 0 SEEK_END (_pg_rw_seek env o 0 SEEK_CUR w).2).1 ≠ -1 →
              (_pg_rw_seek env o (_pg_rw_seek env o 0 SEEK_CUR w).1 SEEK_SET
                  (_pg_rw_seek env o 0 SEEK_END (_pg_rw_seek env o 0 SEEK_CUR w).2).2).1 ≠ -1 →
            (_pg_rw_size env o w).1
              = (_pg_rw_seek env o 0 SEEK_END (_pg_rw_seek env o 0 SEEK_CUR w).2).1))
      ∧ (∀ pos : σ → Int, o.hasAttr .seek = true →
        (∀ s, (o.call s ⟨.seek, [.int 0, .int SEEK_CUR]⟩).1 = .ok (.int (pos s))
          ∧ pos (o.call s ⟨.seek, [.int 0, .int SEEK_CUR]⟩).2 = pos s) →
        (∀ s s0, (∃ v, (o.call s ⟨.seek, [.int (pos s0), .int SEEK_SET]⟩).1 = .ok (.int v))
          ∧ pos (o.call s ⟨.seek, [.int (pos s0), .int SEEK_SET]⟩).2 = pos s0) →
        pos (_pg_rw_size env o w).2.host = pos w.host) := by
  refine ⟨?_, ?_, ?_⟩
  · intro h
    simp [_pg_rw_size, h]
  · intro h
    refine ⟨?_, ?_, ?_⟩
    · exact size_world env o w h
    · intro hor
      unfold _pg_rw_size
      simp only [h, if_false]
      split
      · rfl
      · rename_i hb
        rcases hor with hr | hb'
        · exact hr
        · exact absurd hb' hb
    · intro _ hb
      unfold _pg_rw_size
      simp only [h, if_false, hb]
  · intro pos ha hcur hset
    have hcall := CallMethod_ok o ⟨.seek, [.int 0, .int SEEK_CUR]⟩ w (.int (pos w.host)) ha
      (hcur w.host).1
    obtain ⟨hhost, hval⟩ := seek_of_int env o 0 SEEK_CUR w _ (pos w.host) hcall
    have hp : pos (_pg_rw_seek env o 0 SEEK_CUR w).2.host = pos w.host := by
      rw [hhost]; exact (hcur w.host).2
    by_cases h : (_pg_rw_seek env o 0 SEEK_CUR w).1 = -1
    · have : _pg_rw_size env o w = (-1, (_pg_rw_seek env o 0 SEEK_CUR w).2) := by
        simp [_pg_rw_size, h]
      rw [this]
      exact hp
    · have hpv : (_pg_rw_seek env o 0 SEEK_CUR w).1 = pos w.host := by
        rcases hval with hv | hv
        · exact hv
        · exact absurd hv h
      rw [size_world env o w h, hpv]
      obtain ⟨⟨v, hv⟩, hps⟩ :=
        hset (_pg_rw_seek env o 0 SEEK_END (_pg_rw_seek env o 0 SEEK_CUR w).2).2.host w.host
      have hcall2 := CallMethod_ok o ⟨.seek, [.int (pos w.host), .int SEEK_SET]⟩
        (_pg_rw_seek env o 0 SEEK_END (_pg_rw_seek env o 0 SEEK_CUR w).2).2 (.int v) ha hv
      obtain ⟨hhost2, _⟩ := seek_of_int env o (pos w.host) SEEK_SET _ _ v hcall2
      rw [hhost2]
      exact hps

/-- C8 at the in-memory stream, two bytes into its three: the size is 3 and
the position is 2 again. -/
theorem size_result_witness :
    (_pg_rw_size (plainEnv (.ok []) true true) memObject
        { memWorld with host := ⟨[1, 2, 3], 2, false⟩ }).1 = 3
      ∧ ((_pg_rw_size (plainEnv (.ok []) true true) memObject
          { memWorld with host := ⟨[1, 2, 3], 2, false⟩ }).2.host.pos : Int) = 2 :=
  ⟨by decide,
    (size_result (plainEnv (.ok []) true true) memObject
        { memWorld with host := ⟨[1, 2, 3], 2, false⟩ }).2.2
      (fun s => (s.pos : Int)) rfl
      (fun s => ⟨by simp [memObject, memCall, SEEK_CUR], by simp [memObject, memCall, SEEK_CUR]⟩)
      (fun s s0 => ⟨⟨(s0.pos : Int), by simp [memObject, memCall, SEEK_SET]⟩,
        by simp [memObject, memCall, SEEK_SET]⟩)⟩


/-! ## Facts about the encoding functions -/

/-- What `_trydecode_pathlibobj` returns does not depend on the world. -/
theorem trydecode_fst {σ : Type} (env : Env) (o : PyObject σ) (w w' : World σ) :
    (_trydecode_pathlibobj env o w).1 = (_trydecode_pathlibobj env o w').1 := by
  unfold _trydecode_pathlibobj PyOS_FSPath
  cases env.build <;> simp only
  · cases env.importPathlib <;> simp only
    cases env.purePathAttr <;> simp only
    rcases o.isPurePath with e | b
    · rfl
    · cases b <;> simp only
      cases o.strOf <;> rfl
  · cases o.content <;> simp only
    rcases o.fspath with e | c
    · rfl
    · cases c <;> rfl

/-- When `_trydecode_pathlibobj` returns an object it leaves the error
indicator as it was, or clear. -/
theorem trydecode_err {σ : Type} (env : Env) (o : PyObject σ) (w w1 : World σ) (c : Content)
    (h : _trydecode_pathlibobj env o w = (some c, w1)) : w1.err = none ∨ w1.err = w.err := by
  unfold _trydecode_pathlibobj PyOS_FSPath at h
  cases hb : env.build <;> rw [hb] at h <;> try simp only at h
  · right; cases h; rfl
  · right; cases h; rfl
  · cases hi : env.importPathlib <;> rw [hi] at h <;> try simp only at h
    · cases hp : env.purePathAttr <;> rw [hp] at h <;> try simp only at h
      · rcases hq : o.isPurePath with e | b <;> rw [hq] at h <;> try simp only at h
        · cases h
        · cases b <;> try simp only at h
          · right; cases h; rfl
          · cases hs : o.strOf <;> rw [hs] at h <;> try simp only at h
            · cases h
            · right; cases h; rfl
      · cases h
    · cases h
  · cases hc : o.content <;> rw [hc] at h <;> try simp only at h
    · right; cases h; rfl
    · right; cases h; rfl
    · rcases hf : o.fspath with e | c' <;> rw [hf] at h <;> try simp only at h
      · left; cases h; rfl
      · cases c' <;> try simp only at h
        · right; cases h; rfl
        · right; cases h; rfl
        · left; cases h; rfl

/-- A text object reaches the encoder as it is, on every build but Python
3.4 and 3.5 (where the lookup of `pathlib.PurePath` comes first). -/
theorem trydecode_text {σ : Type} (env : Env) (o : PyObject σ) (w : World σ) (s : String)
    (hc : o.content = .text s) (hb : env.build ≠ .py34) :
    _trydecode_pathlibobj env o w = (some (.text s), w) := by
  unfold _trydecode_pathlibobj PyOS_FSPath
  cases h : env.build
  · simp [hc]
  · simp [hc]
  · exact absurd h hb
  · simp [hc]

/-- When `pg_EncodeString` returns an object and no error was pending, none
is pending afterwards. -/
theorem EncodeString_some_err {σ : Type} (env : Env) (obj : Option (PyObject σ))
    (encoding errors : Option String) (eclass : Option ExcType) (w w1 : World σ) (v : PyVal)
    (h : pg_EncodeString env obj encoding errors eclass w = (some v, w1)) (hw : w.err = none) :
    w1.err = none := by
  unfold pg_EncodeString at h
  cases obj with
  | none => simp at h
  | some o =>
    simp only at h
    rcases hd : _trydecode_pathlibobj env o w with ⟨c, wd⟩
    rw [hd] at h
    cases c with
    | none => simp at h
    | some c =>
      have hwd : wd.err = none := by
        rcases trydecode_err env o w wd c hd with h1 | h1
        · exact h1
        · rw [h1, hw]
      cases c with
      | text s =>
        simp only at h
        split at h
        · cases h; exact hwd
        · split at h
          · cases h
          · split at h
            · split at h <;> cases h
            · split at h
              · cases h
              · cases h; rfl
      | bytes b => cases h; exact hwd
      | other => cases h; exact hwd

/-- The bytes hold a NUL exactly when `strlen` stops short of their length. -/
theorem strlen_ne_length_iff (b : Bytes) : b.length ≠ strlen b ↔ (0 : Fin 256) ∈ b := by
  unfold strlen
  induction b with
  | nil => simp
  | cons x xs ih =>
    by_cases hx : x = 0
    · subst hx
      simp [List.takeWhile]
    · have hx' : (0 : Fin 256) ≠ x := fun h => hx h.symm
      have hstep : (List.takeWhile (fun x => decide (x ≠ 0)) (x :: xs)).length
          = (List.takeWhile (fun x => decide (x ≠ 0)) xs).length + 1 := by
        simp [List.takeWhile, hx]
      rw [hstep, List.length_cons, List.mem_cons]
      constructor
      · intro h
        right
        exact ih.mp (fun h' => h (by rw [h']))
      · intro h h'
        rcases h with h | h
        · exact hx' h
        · exact ih.mpr h (by omega)


/-! ## C3: the order in which an encoding failure is resolved -/

/-- C3, as stated, fails in the branch taken when an error class is
supplied.  The encoder fails on the text `"a"`, the class supplied is
`user 1`.  When the original error has a value whose `str()` raises, the
error left pending is that `TypeError`, not one of the class supplied; when
the original error has no value, the error raised carries the fixed text
`"Unicode encoding error"`. -/
theorem encode_failure_not_translated :
    (pg_EncodeString
        (plainEnv (.error ⟨.UnicodeError, .unprintable .TypeError "__str__ returned non-string"⟩)
          true true)
        (some (textObject "a")) (some "ascii") none (some (.user 1)) unitWorld).2.err
        = some ⟨.TypeError, .text "__str__ returned non-string"⟩
      ∧ (pg_EncodeString (plainEnv (.error ⟨.UnicodeError, .null⟩) true true)
        (some (textObject "a")) (some "ascii") none (some (.user 1)) unitWorld).2.err
        = some ⟨.user 1, .text "Unicode encoding error"⟩ := by
  refine ⟨?_, ?_⟩ <;> rfl

/-- C3, amended: when the encoder fails with error `e` on the text `s` that
`_trydecode_pathlibobj` hands it, `pg_EncodeString` resolves the failure in
this order.
1. `e` is a `MemoryError`: `NULL` is returned with `e` left pending.
2. Else an error class `ec` was supplied: `NULL` is returned, and the pending
   error is of class `ec` with the text of `e` when `e` has a value whose
   `str()` succeeds, of class `ec` with the text `"Unicode encoding error"`
   when `e` has no value, and the error raised by `str()` when that fails.
3. Else `encoding` and `errors` were both `NULL`: `NULL` is returned with a
   `SystemError` pending.
4. Else `None` is returned and no error is pending. -/
theorem encode_failure_order {σ : Type} (env : Env) (o : PyObject σ)
    (encoding errors : Option String) (eclass : Option ExcType) (w w1 : World σ) (s : String)
    (e : PyErr)
    (hdec : _trydecode_pathlibobj env o w = (some (.text s), w1))
    (hfail : env.encode s (encoding.getD pg_default_encoding) (errors.getD pg_default_errors)
      = .error e) :
    (e.type = .MemoryError →
        pg_EncodeString env (some o) encoding errors eclass w = (none, { w1 with err := some e }))
      ∧ (e.type ≠ .MemoryError → ∀ ec, eclass = some ec →
        (pg_EncodeString env (some o) encoding errors eclass w).1 = none
          ∧ (∀ m, e.value = .text m →
            (pg_EncodeString env (some o) encoding errors eclass w).2.err
              = some ⟨ec, .text m⟩)
          ∧ (e.value = .null →
            (pg_EncodeString env (some o) encoding errors eclass w).2.err
              = some ⟨ec, .text "Unicode encoding error"⟩)
          ∧ (∀ t m, e.value = .unprintable t m →
            (pg_EncodeString env (some o) encoding errors eclass w).2.err
              = some ⟨t, .text m⟩))
      ∧ (e.type ≠ .MemoryError → eclass = none → encoding = none → errors = none →
        pg_EncodeString env (some o) encoding errors eclass w
          = (none, { w1 with err := some ⟨.SystemError,
              .text "Pygame bug (in pg_EncodeString): unexpected encoding error"⟩ }))
      ∧ (e.type ≠ .MemoryError → eclass = none → (encoding ≠ none ∨ errors ≠ none) →
        pg_EncodeString env (some o) encoding errors eclass w = (some .none, { w1 with err := none })) := by
  refine ⟨?_, ?_, ?_, ?_⟩
  · intro hm
    simp [pg_EncodeString, hdec, hfail, hm]
  · intro hm ec hec
    subst hec
    refine ⟨?_, ?_, ?_, ?_⟩
    · simp only [pg_EncodeString, hdec, hfail, hm, if_false]
      cases e.value <;> rfl
    · intro m hv
      simp only [pg_EncodeString, hdec, hfail, hm, if_false, hv]
    · intro hv
      simp only [pg_EncodeString, hdec, hfail, hm, if_false, hv, PyErr_SetString]
    · intro t m hv
      simp only [pg_EncodeString, hdec, hfail, hm, if_false, hv]
  · intro hm hec henc herr
    subst hec henc herr
    simp only [pg_EncodeString, hdec]
    simp only [Option.getD] at hfail
    simp [hfail, hm, PyErr_SetString]
  · intro hm hec hne
    subst hec
    simp only [pg_EncodeString, hdec, hfail, hm, if_false]
    have : (encoding.isNone && errors.isNone) = false := by
      rcases hne with h | h
      · cases encoding with
        | none => exact absurd rfl h
        | some x => rfl
      · cases errors with
        | none => exact absurd rfl h
        | some x => cases encoding <;> rfl
    simp [this, PyErr_Clear]

/-- C3, amended, at the text `"a"`, encoding `"ascii"`, class `user 1`, an
encoder failing with `UnicodeError("bad")`: the pending error is
`user 1("bad")`. -/
theorem encode_failure_order_witness :
    _trydecode_pathlibobj (plainEnv (.error ⟨.UnicodeError, .text "bad"⟩) true true)
        (textObject "a") unitWorld = (some (.text "a"), unitWorld)
      ∧ (plainEnv (.error ⟨.UnicodeError, .text "bad"⟩) true true).encode "a" "ascii"
        pg_default_errors = .error ⟨.UnicodeError, .text "bad"⟩
      ∧ (pg_EncodeString (plainEnv (.error ⟨.UnicodeError, .text "bad"⟩) true true)
        (some (textObject "a")) (some "ascii") none (some (.user 1)) unitWorld).1 = none
      ∧ (pg_EncodeString (plainEnv (.error ⟨.UnicodeError, .text "bad"⟩) true true)
        (some (textObject "a")) (some "ascii") none (some (.user 1)) unitWorld).2.err
        = some ⟨.user 1, .text "bad"⟩ :=
  have h := (encode_failure_order (plainEnv (.error ⟨.UnicodeError, .text "bad"⟩) true true)
    (textObject "a") (some "ascii") none (some (.user 1)) unitWorld unitWorld "a"
    ⟨.UnicodeError, .text "bad"⟩ rfl rfl).2.1 (by decide) (.user 1) rfl
  ⟨rfl, rfl, h.1, h.2.1 "bad" rfl⟩

/-! ## C4: `encode_string` with default arguments -/

/-- C4, as stated, fails: with default arguments and the text `"a"`, an
encoder that runs out of memory makes `pg_encode_string` return `NULL` with
the `MemoryError` pending. -/
theorem encode_string_defaults_can_raise :
    (pg_encode_string (plainEnv (.error ⟨.MemoryError, .null⟩) true true)
        ⟨some (textObject "a"), none, none, none⟩ unitWorld).1.isNone = true
      ∧ (pg_encode_string (plainEnv (.error ⟨.MemoryError, .null⟩) true true)
        ⟨some (textObject "a"), none, none, none⟩ unitWorld).2.err
        = some ⟨.MemoryError, .null⟩ := by
  refine ⟨?_, ?_⟩ <;> rfl

/-- C4, amended: `pg_encode_string` with default arguments, on an input
whose text `s` reaches the encoder, returns the bytes the encoder gives for
`s` under `unicode_escape` and `backslashreplace`, and leaves no error
pending when none was; it raises exactly when the encoder fails, with the
`MemoryError` of the encoder or else a `SystemError`. -/
theorem encode_string_defaults {σ : Type} (env : Env) (o : PyObject σ) (w w1 : World σ)
    (s : String) (hdec : _trydecode_pathlibobj env o w = (some (.text s), w1))
    (hw : w.err = none) :
    (∀ b, env.encode s pg_default_encoding pg_default_errors = .ok b →
        pg_encode_string env ⟨some o, none, none, none⟩ w = (some (.bytes b), w1)
          ∧ w1.err = none)
      ∧ (∀ e, env.encode s pg_default_encoding pg_default_errors = .error e →
        (pg_encode_string env ⟨some o, none, none, none⟩ w).1 = none
          ∧ (e.type = .MemoryError →
            (pg_encode_string env ⟨some o, none, none, none⟩ w).2.err = some e)
          ∧ (e.type ≠ .MemoryError →
            (pg_encode_string env ⟨some o, none, none, none⟩ w).2.err
              = some ⟨.SystemError,
                  .text "Pygame bug (in pg_EncodeString): unexpected encoding error"⟩)) := by
  have hw1 : w1.err = none := by
    rcases trydecode_err env o w w1 _ hdec with h | h
    · exact h
    · rw [h, hw]
  refine ⟨?_, ?_⟩
  · intro b hb
    refine ⟨?_, hw1⟩
    simp [pg_encode_string, pg_EncodeString, hdec, hb]
  · intro e he
    refine ⟨?_, ?_, ?_⟩
    · by_cases hm : e.type = .MemoryError <;>
        simp [pg_encode_string, pg_EncodeString, hdec, he, hm]
    · intro hm
      simp [pg_encode_string, pg_EncodeString, hdec, he, hm]
    · intro hm
      simp [pg_encode_string, pg_EncodeString, hdec, he, hm, PyErr_SetString]

/-- C4, amended, at the text `"a"` with an encoder that returns one byte. -/
theorem encode_string_defaults_witness :
    _trydecode_pathlibobj (plainEnv (.ok [97]) true true) (textObject "a") unitWorld
        = (some (.text "a"), unitWorld)
      ∧ unitWorld.err = none
      ∧ pg_encode_string (plainEnv (.ok [97]) true true) ⟨some (textObject "a"), none, none, none⟩
          unitWorld = (some (.bytes [97]), unitWorld) :=
  ⟨rfl, rfl,
    ((encode_string_defaults (plainEnv (.ok [97]) true true) (textObject "a") unitWorld unitWorld
      "a" rfl rfl).1 [97] rfl).1⟩


/-! ## C5: `pg_EncodeFilePath` -/

/-- When `pg_EncodeString` returns bytes, the input is an object that
`_trydecode_pathlibobj` turned into text or bytes. -/
theorem EncodeString_bytes_source {σ : Type} (env : Env) (obj : Option (PyObject σ))
    (encoding errors : Option String) (eclass : Option ExcType) (w w1 : World σ) (b : Bytes)
    (h : pg_EncodeString env obj encoding errors eclass w = (some (.bytes b), w1)) :
    ∃ o, obj = some o ∧ ((∃ s, (_trydecode_pathlibobj env o w).1 = some (.text s))
      ∨ (∃ r, (_trydecode_pathlibobj env o w).1 = some (.bytes r))) := by
  unfold pg_EncodeString at h
  cases obj with
  | none => simp at h
  | some o =>
    refine ⟨o, rfl, ?_⟩
    simp only at h
    rcases hd : _trydecode_pathlibobj env o w with ⟨c, wd⟩
    rw [hd] at h
    cases c with
    | none => simp at h
    | some c =>
      cases c with
      | text s => exact Or.inl ⟨s, rfl⟩
      | bytes r => exact Or.inr ⟨r, rfl⟩
      | other => simp at h

/-- With default arguments and no error class, `pg_EncodeString` on an
object that is turned into text or bytes returns `NULL` or bytes, never
`None`. -/
theorem EncodeString_default_result {σ : Type} (env : Env) (o : PyObject σ) (w : World σ)
    (hsrc : (∃ s, (_trydecode_pathlibobj env o w).1 = some (.text s))
      ∨ (∃ r, (_trydecode_pathlibobj env o w).1 = some (.bytes r))) :
    (∃ w2, pg_EncodeString env (some o) none none none w = (none, w2))
      ∨ (∃ r w2, pg_EncodeString env (some o) none none none w = (some (.bytes r), w2)) := by
  unfold pg_EncodeString
  simp only
  rcases hd : _trydecode_pathlibobj env o w with ⟨c, wd⟩
  rw [hd] at hsrc
  rcases hsrc with ⟨s, hs⟩ | ⟨r, hr⟩
  · simp only at hs
    subst hs
    simp only
    rcases he : env.encode s (Option.getD none pg_default_encoding)
        (Option.getD none pg_default_errors) with e | out
    · simp only
      by_cases hm : e.type = .MemoryError
      · left
        refine ⟨{ wd with err := some e }, ?_⟩
        rw [if_pos hm]
      · left
        refine ⟨PyErr_SetString .SystemError
          "Pygame bug (in pg_EncodeString): unexpected encoding error" wd, ?_⟩
        rw [if_neg hm]
        rfl
    · right; exact ⟨out, wd, rfl⟩
  · simp only at hr
    subst hr
    right; exact ⟨r, wd, rfl⟩

/-- C5, as stated, fails when an error class is given: the path `"a"`
encodes under the filesystem encoding to bytes with a NUL, the class
supplied is `user 1`, and the second encoding (with the defaults, for the
message) runs out of memory.  `pg_EncodeFilePath` returns `NULL` with that
`MemoryError` pending, not an error of the class supplied. -/
theorem encode_file_path_other_error :
    (pg_EncodeString nulPathEnv (some (textObject "a")) nulPathEnv.fsCodec nulPathEnv.fsErrors
        (some (.user 1)) unitWorld).1.isSome = true
      ∧ (pg_EncodeFilePath nulPathEnv (some (textObject "a")) (some (.user 1)) unitWorld).1.isNone
        = true
      ∧ (pg_EncodeFilePath nulPathEnv (some (textObject "a")) (some (.user 1)) unitWorld).2.err
        = some ⟨.MemoryError, .null⟩ := by
  refine ⟨?_, ?_, ?_⟩ <;> decide

/-- C5, amended: when `pg_EncodeString` with the filesystem encoding returns
bytes `b` for the input,
* if `b` holds no NUL, `pg_EncodeFilePath` returns `b`, as `pg_EncodeString`
  did;
* if `b` holds a NUL and no error class is given, it returns `None`, and no
  error is pending afterwards when none was before;
* if `b` holds a NUL and the class `ec` is given, it returns `NULL`; the
  input is encoded again with the defaults, and either that gives bytes `r`
  and the pending error is of class `ec` with the message built from `r`, or
  it fails and its error is the one left pending. -/
theorem encode_file_path_result {σ : Type} (env : Env) (obj : Option (PyObject σ))
    (eclass : Option ExcType) (w w1 : World σ) (b : Bytes)
    (h : pg_EncodeString env obj env.fsCodec env.fsErrors eclass w = (some (.bytes b), w1)) :
    ((0 : Fin 256) ∉ b → pg_EncodeFilePath env obj eclass w = (some (.bytes b), w1))
      ∧ ((0 : Fin 256) ∈ b → eclass = none →
        pg_EncodeFilePath env obj eclass w = (some .none, w1) ∧ (w.err = none → w1.err = none))
      ∧ ((0 : Fin 256) ∈ b → ∀ ec, eclass = some ec →
        (pg_EncodeFilePath env obj eclass w).1 = none
          ∧ ((∃ r w2, pg_EncodeString env obj none none none w1 = (some (.bytes r), w2)
              ∧ (pg_EncodeFilePath env obj eclass w).2
                = { w2 with err := some ⟨ec, .text (nullPathMessage r)⟩ })
            ∨ (∃ w2, pg_EncodeString env obj none none none w1 = (none, w2)
              ∧ (pg_EncodeFilePath env obj eclass w).2 = w2))) := by
  refine ⟨?_, ?_, ?_⟩
  · intro h0
    have hlen : ¬ b.length ≠ strlen b := fun hne => h0 ((strlen_ne_length_iff b).mp hne)
    unfold pg_EncodeFilePath
    rw [h]
    dsimp only
    rw [if_neg hlen]
  · intro h0 hec
    have hlen : b.length ≠ strlen b := (strlen_ne_length_iff b).mpr h0
    subst hec
    refine ⟨?_, fun hw => EncodeString_some_err env obj _ _ _ w w1 _ h hw⟩
    unfold pg_EncodeFilePath
    rw [h]
    dsimp only
    rw [if_pos hlen]
  · intro h0 ec hec
    have hlen : b.length ≠ strlen b := (strlen_ne_length_iff b).mpr h0
    subst hec
    obtain ⟨o, ho, hsrc⟩ := EncodeString_bytes_source env obj _ _ _ w w1 b h
    subst ho
    have hsrc1 : (∃ s, (_trydecode_pathlibobj env o w1).1 = some (.text s))
        ∨ (∃ r, (_trydecode_pathlibobj env o w1).1 = some (.bytes r)) := by
      rw [trydecode_fst env o w1 w]; exact hsrc
    rcases EncodeString_default_result env o w1 hsrc1 with ⟨w2, h2⟩ | ⟨r, w2, h2⟩
    · refine ⟨?_, Or.inr ⟨w2, h2, ?_⟩⟩
      · unfold pg_EncodeFilePath
        rw [h]
        dsimp only
        rw [if_pos hlen, h2]
      · unfold pg_EncodeFilePath
        rw [h]
        dsimp only
        rw [if_pos hlen, h2]
    · refine ⟨?_, Or.inl ⟨r, w2, h2, ?_⟩⟩
      · unfold pg_EncodeFilePath
        rw [h]
        dsimp only
        rw [if_pos hlen, h2]
      · unfold pg_EncodeFilePath
        rw [h]
        dsimp only
        rw [if_pos hlen, h2]

/-- C5, amended, at the path `"a"` with an encoder that returns `a`, NUL,
`b` under every encoding: without an error class the result is `None`. -/
theorem encode_file_path_result_witness :
    pg_EncodeString (plainEnv (.ok [97, 0, 98]) true true) (some (textObject "a"))
        (plainEnv (.ok [97, 0, 98]) true true).fsCodec
        (plainEnv (.ok [97, 0, 98]) true true).fsErrors none unitWorld
        = (some (.bytes [97, 0, 98]), unitWorld)
      ∧ (0 : Fin 256) ∈ ([97, 0, 98] : Bytes)
      ∧ pg_EncodeFilePath (plainEnv (.ok [97, 0, 98]) true true) (some (textObject "a")) none
          unitWorld = (some .none, unitWorld) :=
  ⟨rfl, by decide,
    ((encode_file_path_result (plainEnv (.ok [97, 0, 98]) true true) (some (textObject "a")) none
      unitWorld unitWorld [97, 0, 98] rfl).2.1 (by decide) rfl).1⟩


/-! ## C9: opening a path, and the fallback to the object adapter -/

/-- C9.  For a `NULL` input `_rwops_from_pystr` returns `NULL` and touches
nothing.  For an input that could not be opened as a file, with no error
pending on entry (`pg_EncodeString` with `"UTF-8"` returned `None`, or
returned bytes that `SDL_RWFromFile` did not open), it returns `NULL`; for a
string-like input the file-not-found error is pending and
`pgRWops_FromObject` returns `NULL` with it; for any other input no error is
pending and `pgRWops_FromObject` is `pgRWops_FromFileObject` on the input.
In general `pgRWops_FromObject` returns the handle of `_rwops_from_pystr`
when there is one, returns `NULL` when an error is pending after it, and
calls `pgRWops_FromFileObject` only when it gave `NULL` with no error. -/
theorem try_open_path_failure {σ : Type} (env : Env) (o : PyObject σ) (w : World σ) :
    _rwops_from_pystr env none w = (none, w)
      ∧ (w.err = none → ∀ v w1,
        pg_EncodeString env (some o) (some "UTF-8") none none w = (some v, w1) →
        (∀ b, v = .bytes b → env.openFile (Bytes_AS_STRING b) = false) →
        (_rwops_from_pystr env (some o) w).1 = none
          ∧ (isStringLike env o = true →
            (_rwops_from_pystr env (some o) w).2.err = some (noSuchFile env)
              ∧ pgRWops_FromObject env (some o) w = (none, (_rwops_from_pystr env (some o) w).2))
          ∧ (isStringLike env o = false →
            (_rwops_from_pystr env (some o) w).2.err = none
              ∧ pgRWops_FromObject env (some o) w
                = pgRWops_FromFileObject env (some o) (_rwops_from_pystr env (some o) w).2))
      ∧ (∀ obj : Option (PyObject σ),
        (∀ rw w1, _rwops_from_pystr env obj w = (some rw, w1) →
            pgRWops_FromObject env obj w = (some rw, w1))
          ∧ (∀ w1, _rwops_from_pystr env obj w = (none, w1) → w1.err.isSome = true →
            pgRWops_FromObject env obj w = (none, w1))
          ∧ (∀ w1, _rwops_from_pystr env obj w = (none, w1) → w1.err = none →
            pgRWops_FromObject env obj w = pgRWops_FromFileObject env obj w1)) := by
  refine ⟨rfl, ?_, ?_⟩
  · intro hw v w1 henc hopen
    have hw1 : w1.err = none := EncodeString_some_err env (some o) _ _ _ w w1 v henc hw
    have hrw : ∃ w2, w2.err = none ∧
        (match v with
          | .bytes b =>
            if env.openFile (Bytes_AS_STRING b) then
              ((some (.native (Bytes_AS_STRING b)) : Option (RWops σ)),
                { w1 with live := w1.live + 1 })
            else (none, { w1 with sdlError := true })
          | _ => (none, w1)) = (none, w2) := by
      cases v with
      | bytes b =>
        refine ⟨{ w1 with sdlError := true }, hw1, ?_⟩
        simp [hopen b rfl]
      | none => exact ⟨w1, hw1, rfl⟩
      | int i => exact ⟨w1, hw1, rfl⟩
      | str s => exact ⟨w1, hw1, rfl⟩
      | obj t => exact ⟨w1, hw1, rfl⟩
    obtain ⟨w2, hw2, hmatch⟩ := hrw
    have hfrom : _rwops_from_pystr env (some o) w
        = if isStringLike env o then
            (none, { w2 with sdlError := false, err := some (noSuchFile env) })
          else (none, { w2 with sdlError := false }) := by
      unfold _rwops_from_pystr
      simp only [henc]
      rw [hmatch]
    refine ⟨?_, ?_, ?_⟩
    · rw [hfrom]; split <;> rfl
    · intro hs
      rw [if_pos hs] at hfrom
      refine ⟨by rw [hfrom], ?_⟩
      unfold pgRWops_FromObject
      rw [hfrom]
      simp
    · intro hs
      have hs' : ¬ (isStringLike env o = true) := by simp [hs]
      rw [if_neg hs'] at hfrom
      refine ⟨by rw [hfrom]; exact hw2, ?_⟩
      unfold pgRWops_FromObject
      rw [hfrom]
      simp [hw2]
  · intro obj
    refine ⟨?_, ?_, ?_⟩
    · intro rw w1 h
      unfold pgRWops_FromObject
      rw [h]
    · intro w1 h he
      unfold pgRWops_FromObject
      rw [h]
      simp [he]
    · intro w1 h he
      unfold pgRWops_FromObject
      rw [h]
      simp [he]

/-- C9 at the text `"a"`, which no file answers to: `_rwops_from_pystr`
returns `NULL` with `FileNotFoundError` pending, and `pgRWops_FromObject`
returns the same. -/
theorem try_open_path_failure_witness :
    unitWorld.err = none
      ∧ (_rwops_from_pystr (plainEnv (.ok [97]) true false) (some (textObject "a")) unitWorld).2.err
          = some ⟨.FileNotFoundError, .text "No such file or directory."⟩
      ∧ pgRWops_FromObject (plainEnv (.ok [97]) true false) (some (textObject "a")) unitWorld
          = (none,
              (_rwops_from_pystr (plainEnv (.ok [97]) true false) (some (textObject "a"))
                unitWorld).2) :=
  ⟨rfl,
    (((try_open_path_failure (plainEnv (.ok [97]) true false) (textObject "a") unitWorld).2.1 rfl
      (.bytes [97]) unitWorld rfl (fun _ _ => rfl)).2.1 rfl)⟩


/-! ## Where the probe and the read trampoline do meet C6 and C10 -/

/-- The cases of `_is_filelike_obj` on an object that is present: 0 when one
of `read`, `write`, `seek` (and `tell` under `PY2`) is missing; 1 when these
are there and `seekable` is not; 0 with the error cleared when `seekable()`
fails; the outcome of the truth test of its value otherwise.  And
`pgRWops_FromFileObject` fails with `TypeError` whenever the probe gives 0. -/
theorem probe_cases {σ : Type} (env : Env) (o : PyObject σ) (w : World σ) :
    ((o.hasAttr .read = false ∨ o.hasAttr .write = false ∨ o.hasAttr .seek = false
          ∨ (env.build.isPY2 = true ∧ o.hasAttr .tell = false)) →
        _is_filelike_obj env (some o) w = (0, w))
      ∧ (o.hasAttr .read = true → o.hasAttr .write = true → o.hasAttr .seek = true →
          (env.build.isPY2 = true → o.hasAttr .tell = true) →
        (o.hasAttr .seekable = false → _is_filelike_obj env (some o) w = (1, w))
          ∧ (o.hasAttr .seekable = true → ∀ w1,
            PyObject_CallMethod o ⟨.seekable, []⟩ w = (none, w1) →
            _is_filelike_obj env (some o) w = (0, { w1 with err := none }))
          ∧ (o.hasAttr .seekable = true → ∀ temp w1,
            PyObject_CallMethod o ⟨.seekable, []⟩ w = (some temp, w1) →
            _is_filelike_obj env (some o) w = PyObject_IsTrue temp w1))
      ∧ (∀ obj : Option (PyObject σ), (_is_filelike_obj env obj w).1 = 0 →
        pgRWops_FromFileObject env obj w
          = (none, PyErr_SetString .TypeError "Invalid filetype object"
              (_is_filelike_obj env obj w).2)) := by
  refine ⟨?_, ?_, ?_⟩
  · intro h
    unfold _is_filelike_obj
    rcases h with h | h | h | ⟨h1, h2⟩
    · simp [h]
    · simp [h]
    · simp [h]
    · simp [h1, h2]
  · intro hr hw hs ht
    have hcap : (!o.hasAttr .read || !o.hasAttr .write || !o.hasAttr .seek
        || (env.build.isPY2 && !o.hasAttr .tell)) = false := by
      cases hpy : env.build.isPY2
      · simp [hr, hw, hs]
      · simp [hr, hw, hs, ht hpy]
    refine ⟨?_, ?_, ?_⟩
    · intro hsk
      unfold _is_filelike_obj
      simp only [hcap, hsk, Bool.false_eq_true, if_false]
    · intro hsk w1 hcall
      unfold _is_filelike_obj
      simp only [hcap, hsk, Bool.false_eq_true, if_false, if_true, hcall, PyErr_Clear]
    · intro hsk temp w1 hcall
      unfold _is_filelike_obj
      simp only [hcap, hsk, Bool.false_eq_true, if_false, if_true, hcall]
  · intro obj h0
    unfold pgRWops_FromFileObject
    cases obj with
    | none => rfl
    | some o => simp [h0]

/-- When the host returns no more bytes than it was asked for, the read
trampoline stays within the buffer: at most `size * maxnum` bytes are copied
and at most `maxnum` elements are reported. -/
theorem read_within_buffer {σ : Type} (o : PyObject σ) (ptr : Bytes) (size maxnum : Nat)
    (w w1 : World σ) (data : Bytes) (hsize : 0 < size)
    (hcall : PyObject_CallMethod o ⟨.read, [.int (((size * maxnum) % 2 ^ 64 : Nat) : Int)]⟩ w
      = (some (.bytes data), w1))
    (hlen : data.length ≤ size * maxnum) :
    ∃ out, (_pg_rw_read o ptr size maxnum w).1 = some out
      ∧ out.copied ≤ size * maxnum ∧ out.retval ≤ maxnum := by
  have hs : size ≠ 0 := Nat.pos_iff_ne_zero.mp hsize
  unfold _pg_rw_read
  rw [hcall]
  by_cases hd : data.length = 0
  · exact ⟨⟨0, ptr, 0⟩, by simp [hd], Nat.zero_le _, Nat.zero_le _⟩
  · refine ⟨⟨data.length / size, memcpy ptr data data.length, data.length⟩, by simp [hd, hs],
      hlen, ?_⟩
    exact Nat.div_le_of_le_mul hlen


end RWObject
